import Mathlib

/-!
# Verification of the Ethereum node launch orchestrator

Shallow embedding of `src/crates/ethereum/node/src/launch.rs` (the
`EthNodeLauncher::launch_node` sequence) and of the type-level builders in
`src/crates/node/api/src/node.rs` (`AnyNodeTypes`, the unit `NodeAddOns` and
`BuilderProvider` impls).

The launch sequence is modelled as a pure function over an `Env` that records,
for every fallible collaborator call the orchestrator makes, the outcome that
call would produce (success, or the error its `?` would propagate).  The
function returns the trace of observable events (setup steps entered, tasks
spawned, channel endpoints created/dropped, service construction, handle
creation) in program order, together with the `Except` result that
`launch_node` returns.  Concrete handles (pool, network, provider, ...) are
identified by `Nat` ids; `clone()` is identity on ids.
-/

/-- Errors a launch step can fail with.  One constructor per fallible call
site in `launch_node`; the env chooses which (if any) occurs. -/
inductive Err
  | tomlConfig
  | resolvePeers
  | providerFactory
  | prometheus
  | genesisMismatch
  | blockchainDb
  | components
  | fetchClient
  | maxBlock
  | pipeline
  | jwt
  | rpc
  | onStartedHook
  deriving DecidableEq, Repr

/-- The Launch Context setup steps of `launch_node` (lines 77-104 of
`launch.rs`), in source order. -/
inductive LaunchStep
  | configureGlobals
  | loadTomlConfig
  | resolvePeers
  | attachDatabase
  | adjustConfigs
  | providerFactory
  | prometheusServer
  | withGenesis
  | metricsTask
  | blockchainDb
  | withComponents
  deriving DecidableEq, Repr

/-- Background tasks spawned during `launch_node`. -/
inductive TaskName
  | metrics
  | exexManager
  | eventsTask
  | rpcServers
  | consensusEngine
  deriving DecidableEq, Repr

/-- Endpoints of the two tree channels created at lines 164-165 of
`launch.rs`: `(to_tree_tx, _to_tree_rx) = channel()` and
`(_from_tree_tx, from_tree_rx) = unbounded_channel()`. -/
inductive Endpoint
  | toTreeTx
  | toTreeRx
  | fromTreeTx
  | fromTreeRx
  deriving DecidableEq, Repr

/-- Observable events of a `launch_node` run, in program order. -/
inductive Ev
  | step (s : LaunchStep)
  | spawnTask (t : TaskName)
  | chanCreated (e : Endpoint)
  | serviceConstructed
  | rpcStarted
  | onNodeStarted
  | handleCreated
  | dropped (e : Endpoint)
  deriving DecidableEq, Repr

/-- The component set built by `with_components` (pool, EVM config, block
executor, network handle, payload builder); instances are `Nat` ids. -/
structure ComponentsM where
  pool : Nat
  evmConfig : Nat
  blockExecutor : Nat
  network : Nat
  payloadBuilder : Nat
  deriving DecidableEq, Repr

/-- The node-configuration fields `launch_node` reads:
`debug.tip`, `debug.terminate` and the dev flag behind `ctx.is_dev()`. -/
structure NodeConfigM where
  debugTip : Option Nat
  terminate : Bool
  dev : Bool
  deriving DecidableEq, Repr

deriving instance DecidableEq for Except

/-- Terminal result of the consensus-engine service (`eth_service.await`):
ok, or an engine error identified by a code. -/
abbrev EngResult := Except Nat Unit

/-- Environment of one launch invocation: for every fallible collaborator
call, the outcome it would produce; plus the data the orchestrator threads
through (component ids, config, genesis state of the store, installed
execution extensions, the engine service's eventual terminal result). -/
structure Env where
  tomlConfig : Option Err
  resolvePeers : Option Err
  providerFactory : Option Err
  prometheus : Option Err
  /-- Genesis hash already recorded in the store, if any. -/
  storedGenesis : Option Nat
  /-- Genesis hash of the configured chain spec. -/
  configuredGenesis : Nat
  blockchainDb : Option Err
  componentsBuild : Except Err ComponentsM
  fetchClient : Option Err
  maxBlock : Option Err
  installedExex : List Nat
  buildPipeline : Option Err
  jwtSecret : Option Err
  /-- `launch_rpc_servers` outcome: error, or `(rpc_server_handles, rpc_registry)` ids. -/
  rpcLaunch : Except Err (Nat × Nat)
  onStartedRes : Option Err
  nodeConfig : NodeConfigM
  provider : Nat
  taskExecutor : Nat
  dataDir : Nat
  /-- Value of `exex_manager_handle.finished_height()` when extensions exist. -/
  exexFinishedHeight : Nat
  /-- The terminal result the spawned consensus-engine task will send. -/
  engineResult : EngResult
  deriving DecidableEq, Repr

/-- `with_genesis()?` (`launch.rs` line 96): verifies or writes genesis;
fails iff the store already records a different genesis. -/
def genesisCheck (env : Env) : Option Err :=
  match env.storedGenesis with
  | some g => if g = env.configuredGenesis then none else some .genesisMismatch
  | none => none

/-- The Launch Context phase of `launch_node` (`launch.rs` lines 77-104).
Each chained call appends its step event and, for the fallible calls, either
continues or stops with the error its `?` propagates.

Modelled from the spec: the bodies of the `LaunchContext` step methods
(`with_configured_globals`, ..., `with_components`) live in
`reth_node_builder`, which is not part of this repository snapshot; per the
spec's step list and concurrency section, no step before `with_metrics_task`
spawns a background task, and `with_metrics_task` starts the passive metrics
task. -/
def launchCtx (env : Env) : List Ev × Except Err ComponentsM :=
  -- .with_configured_globals()
  let tr := [Ev.step .configureGlobals]
  -- .with_loaded_toml_config(config)?
  let tr := tr ++ [Ev.step .loadTomlConfig]
  match env.tomlConfig with
  | some e => (tr, .error e)
  | none =>
    -- .with_resolved_peers().await?
    let tr := tr ++ [Ev.step .resolvePeers]
    match env.resolvePeers with
    | some e => (tr, .error e)
    | none =>
      -- .attach(database.clone())
      let tr := tr ++ [Ev.step .attachDatabase]
      -- .with_adjusted_configs()
      let tr := tr ++ [Ev.step .adjustConfigs]
      -- .with_provider_factory().await?
      let tr := tr ++ [Ev.step .providerFactory]
      match env.providerFactory with
      | some e => (tr, .error e)
      | none =>
        -- .with_prometheus_server().await?
        let tr := tr ++ [Ev.step .prometheusServer]
        match env.prometheus with
        | some e => (tr, .error e)
        | none =>
          -- .with_genesis()?
          let tr := tr ++ [Ev.step .withGenesis]
          match genesisCheck env with
          | some e => (tr, .error e)
          | none =>
            -- .with_metrics_task()  (starts the passive metrics task)
            let tr := tr ++ [Ev.step .metricsTask, Ev.spawnTask .metrics]
            -- .with_blockchain_db::<T>()?
            let tr := tr ++ [Ev.step .blockchainDb]
            match env.blockchainDb with
            | some e => (tr, .error e)
            | none =>
              -- .with_components(components_builder, on_component_initialized).await?
              let tr := tr ++ [Ev.step .withComponents]
              match env.componentsBuild with
              | .error e => (tr, .error e)
              | .ok comps => (tr, .ok comps)

/-- Handle of the execution-extension manager: the empty/no-op handle
(`ExExManagerHandle::empty`) or a live manager. -/
inductive ExExHandleM
  | empty
  | live (id : Nat)
  deriving DecidableEq, Repr

/-- `ExExLauncher::new(head, adapter, installed_exex, configs).launch().await`.

Modelled from the spec: `ExExLauncher` lives in `reth_node_builder`, not in
this repository snapshot.  Per the spec (§4.3), the launcher returns an
optional manager handle and, with zero extensions installed, the
empty/no-op handle is used, i.e. no manager is produced. -/
def exexLaunch (installed : List Nat) : Option ExExHandleM :=
  if installed.isEmpty then none else some (.live 0)

/-- A source stream merged by the `stream_select!` at lines 187-201 of
`launch.rs`. -/
inductive EvSource
  | network
  | pipeline
  | clHealth
  | emptyStream
  | pruner
  | staticFile
  deriving DecidableEq, Repr

/-- The streams handed to the events task, in `stream_select!` order
(`launch.rs` lines 187-201): network events, pipeline events, either the
consensus-layer health events (when `debug.tip.is_none() && !is_dev`) or an
empty stream, pruner events, static-file-producer events. -/
def eventsStreams (cfg : NodeConfigM) : List EvSource :=
  [ EvSource.network,
    EvSource.pipeline,
    if cfg.debugTip.isNone && !cfg.dev then EvSource.clHealth else EvSource.emptyStream,
    EvSource.pruner,
    EvSource.staticFile ]

/-- The node's exit future (`NodeExitFuture::new(async { Ok(rx.await??) },
config.debug.terminate)`): it will resolve with the terminal result the
consensus-engine task sends over the oneshot channel, gated by the
terminate flag. -/
structure NodeExitFutureM where
  pending : EngResult
  terminate : Bool
  deriving DecidableEq, Repr

/-- The `FullNode` struct literal at lines 250-262 of `launch.rs`. -/
structure FullNodeM where
  evm_config : Nat
  block_executor : Nat
  pool : Nat
  network : Nat
  provider : Nat
  payload_builder : Nat
  task_executor : Nat
  rpc_server_handles : Nat
  rpc_registry : Nat
  config : NodeConfigM
  data_dir : Nat
  deriving DecidableEq, Repr

/-- The `NodeHandle` struct literal at lines 266-272 of `launch.rs`. -/
structure NodeHandleM where
  node_exit_future : NodeExitFutureM
  node : FullNodeM
  deriving DecidableEq, Repr

/-- Result of a successful `launch_node`: the returned handle plus the
claim-relevant artifacts fixed during the run (the exex handle passed to the
pipeline, the pruner's finished-exex-height bound, the streams merged into
the events task, the channel endpoints moved into the engine service). -/
structure LaunchOutput where
  handle : NodeHandleM
  pipelineExexHandle : ExExHandleM
  prunerFinishedExexHeight : Option Nat
  eventsSources : List EvSource
  serviceHeldEndpoints : List Endpoint
  deriving DecidableEq, Repr

/-- The post-context phase of `launch_node` (`launch.rs` lines 106-275),
entered with the built component set `comps` and the trace `tr` accumulated
by the Launch Context phase. -/
def launchPost (env : Env) (comps : ComponentsM) (tr : List Ev) :
    List Ev × Except Err LaunchOutput :=
  -- let exex_manager_handle = ExExLauncher::new(...).launch().await;
  let exexManagerHandle := exexLaunch env.installedExex
  let tr := tr ++ (match exexManagerHandle with
    | some _ => [Ev.spawnTask .exexManager]
    | none => [])
  -- let network_client = ctx.components().network().fetch_client().await?;
  match env.fetchClient with
  | some e => (tr, .error e)
  | none =>
    -- let (consensus_engine_tx, consensus_engine_rx) = unbounded_channel();
    -- let max_block = ctx.max_block(network_client.clone()).await?;
    match env.maxBlock with
    | some e => (tr, .error e)
    | none =>
      -- static_file_producer, its events, hooks.add(StaticFileHook::new(..));
      -- let pipeline_exex_handle =
      --     exex_manager_handle.clone().unwrap_or_else(ExExManagerHandle::empty);
      let pipelineExexHandle := exexManagerHandle.getD ExExHandleM.empty
      -- let pipeline = build_networked_pipeline(..., pipeline_exex_handle)?;
      match env.buildPipeline with
      | some e => (tr, .error e)
      | none =>
        -- let mut pruner_builder = ctx.pruner_builder();
        -- if let Some(h) = &exex_manager_handle {
        --     pruner_builder = pruner_builder.finished_exex_height(h.finished_height());
        -- }
        let prunerFinishedExexHeight :=
          exexManagerHandle.map (fun _ => env.exexFinishedHeight)
        -- pruner build, pruner events, hooks.add(PruneHook::new(..));
        -- let (to_tree_tx, _to_tree_rx) = channel();
        let tr := tr ++ [Ev.chanCreated .toTreeTx, Ev.chanCreated .toTreeRx]
        -- let (_from_tree_tx, from_tree_rx) = unbounded_channel();
        let tr := tr ++ [Ev.chanCreated .fromTreeTx, Ev.chanCreated .fromTreeRx]
        -- let eth_service = EthService::new(chain_spec, client, to_tree_tx,
        --     from_tree_rx, engine request stream, pipeline, executor);
        let serviceHeld : List Endpoint := [.toTreeTx, .fromTreeRx]
        let tr := tr ++ [Ev.serviceConstructed]
        -- event_sender, beacon_engine_handle
        -- let events = stream_select!(..);
        let eventsSources := eventsStreams env.nodeConfig
        -- ctx.task_executor().spawn_critical("events task", ..);
        let tr := tr ++ [Ev.spawnTask .eventsTask]
        -- client version, EngineApi::new(..)
        -- let jwt_secret = ctx.auth_jwt_secret()?;
        match env.jwtSecret with
        | some e => (tr, .error e)
        | none =>
          -- let (rpc_server_handles, rpc_registry) = launch_rpc_servers(..).await?;
          match env.rpcLaunch with
          | .error e => (tr, .error e)
          | .ok rpcPair =>
            let tr := tr ++ [Ev.rpcStarted, Ev.spawnTask .rpcServers]
            -- let (tx, rx) = oneshot::channel();
            -- spawn_critical_blocking("consensus engine",
            --     { let res = eth_service.await; let _ = tx.send(res); });
            let tr := tr ++ [Ev.spawnTask .consensusEngine]
            -- let full_node = FullNode { .. };
            let full_node : FullNodeM := {
              evm_config := comps.evmConfig
              block_executor := comps.blockExecutor
              pool := comps.pool
              network := comps.network
              provider := env.provider
              payload_builder := comps.payloadBuilder
              task_executor := env.taskExecutor
              rpc_server_handles := rpcPair.1
              rpc_registry := rpcPair.2
              config := env.nodeConfig
              data_dir := env.dataDir }
            -- on_node_started.on_event(full_node.clone())?;
            let tr := tr ++ [Ev.onNodeStarted]
            match env.onStartedRes with
            | some e => (tr, .error e)
            | none =>
              -- let handle = NodeHandle { node_exit_future: NodeExitFuture::new(
              --     async { Ok(rx.await??) }, full_node.config.debug.terminate),
              --     node: full_node };
              let handle : NodeHandleM := {
                node_exit_future := {
                  pending := env.engineResult
                  terminate := env.nodeConfig.terminate }
                node := full_node }
              let tr := tr ++ [Ev.handleCreated]
              -- Ok(handle): scope ends, locals that were never moved are
              -- dropped in reverse declaration order (`_from_tree_tx` was
              -- declared after `_to_tree_rx`).
              let tr := tr ++ [Ev.dropped .fromTreeTx, Ev.dropped .toTreeRx]
              (tr, .ok {
                handle := handle
                pipelineExexHandle := pipelineExexHandle
                prunerFinishedExexHeight := prunerFinishedExexHeight
                eventsSources := eventsSources
                serviceHeldEndpoints := serviceHeld })

/-- `EthNodeLauncher::launch_node` (`launch.rs` lines 63-275): the Launch
Context phase followed, on success, by the post-context phase.  Returns the
event trace and the `eyre::Result` value. -/
def launch_node (env : Env) : List Ev × Except Err LaunchOutput :=
  match launchCtx env with
  | (tr, .error e) => (tr, .error e)
  | (tr, .ok comps) => launchPost env comps tr

/-- Project the Launch Context step events out of a trace. -/
def stepsOf (tr : List Ev) : List LaunchStep :=
  tr.filterMap (fun e => match e with
    | .step s => some s
    | _ => none)

/-- The Launch Context steps in the order the source chains them
(`launch.rs` lines 77-104). -/
def codeContextSteps : List LaunchStep :=
  [.configureGlobals, .loadTomlConfig, .resolvePeers, .attachDatabase,
   .adjustConfigs, .providerFactory, .prometheusServer, .withGenesis,
   .metricsTask, .blockchainDb, .withComponents]

/-- The setup-step order mandated by the spec's step list (§4.1); stated
from the spec's words, to be compared with `codeContextSteps`.  The spec
does not list the prometheus-server step. -/
def mandatedSteps : List LaunchStep :=
  [.configureGlobals, .loadTomlConfig, .resolvePeers, .attachDatabase,
   .adjustConfigs, .providerFactory, .withGenesis, .metricsTask,
   .blockchainDb, .withComponents]

/-- Position (in `codeContextSteps`) and error of the first Launch Context
step that fails under `env`, if any. -/
def firstCtxFailure (env : Env) : Option (Nat × Err) :=
  match env.tomlConfig with
  | some e => some (1, e)
  | none =>
    match env.resolvePeers with
    | some e => some (2, e)
    | none =>
      match env.providerFactory with
      | some e => some (5, e)
      | none =>
        match env.prometheus with
        | some e => some (6, e)
        | none =>
          match genesisCheck env with
          | some e => some (7, e)
          | none =>
            match env.blockchainDb with
            | some e => some (9, e)
            | none =>
              match env.componentsBuild with
              | .error e => some (10, e)
              | .ok _ => none

/-- Index of the first occurrence of `e` in `tr`. -/
def evIdx (tr : List Ev) (e : Ev) : Option Nat :=
  tr.findIdx? (fun x => x = e)

/-- `a` occurs in `tr` strictly before `b` does (first occurrences). -/
def occursBefore (tr : List Ev) (a b : Ev) : Bool :=
  match evIdx tr a, evIdx tr b with
  | some i, some j => i < j
  | _, _ => false

/-- One send attempt on the oneshot completion channel
(`tokio::sync::oneshot`): the channel keeps the first value sent; a later
attempt is rejected and changes nothing.  (In the source a second send on
the same channel cannot even be expressed: `Sender::send` consumes the
sender; this models the spec's "attempt to forward two terminal results"
simulation.) -/
def oneshotSend (st : Option EngResult) (r : EngResult) : Option EngResult × Bool :=
  match st with
  | some v => (some v, false)
  | none => (some r, true)

/-- One fold step of replaying send attempts: update the channel state and
record whether the attempt was accepted. -/
def oneshotStep (acc : Option EngResult × List Bool) (r : EngResult) :
    Option EngResult × List Bool :=
  let s := oneshotSend acc.1 r
  (s.1, acc.2 ++ [s.2])

/-- Run a list of send attempts against a fresh oneshot channel; returns the
final channel state and the per-attempt acceptance flags. -/
def oneshotSendAll (rs : List EngResult) : Option EngResult × List Bool :=
  rs.foldl oneshotStep (none, [])

/-- What the Exit Future yields. -/
inductive ExitResult
  | ok
  | engineErr (code : Nat)
  | recvErr
  deriving DecidableEq, Repr

/-- The Exit Future body `async { Ok(rx.await??) }` (`launch.rs` line 268),
applied to the final channel state: the first `?` fails if the sender was
dropped without sending, the second forwards an engine error, otherwise the
service's success value is yielded. -/
def exitFutureResolve (st : Option EngResult) : ExitResult :=
  match st with
  | none => .recvErr
  | some (.error c) => .engineErr c
  | some (.ok _) => .ok

/-- The sends performed by the spawned consensus-engine task (`launch.rs`
lines 245-248): it awaits the service once and sends that single terminal
result. -/
def engineTaskSends (res : EngResult) : List EngResult := [res]

/-! ## Models of `src/crates/node/api/src/node.rs` -/

/-- Rust's `PhantomData<T>`: a zero-sized marker. -/
structure PhantomData (α : Type) : Type where

/-- `AnyNodeTypes<P, E>(PhantomData<P>, PhantomData<E>)`
(`node.rs` line 33). -/
structure AnyNodeTypes (P : Type) (E : Type) : Type where
  p : PhantomData P
  e : PhantomData E

/-- `AnyNodeTypes::default()`. -/
def AnyNodeTypes.default (P : Type) (E : Type) : AnyNodeTypes P E :=
  ⟨{}, {}⟩

/-- `AnyNodeTypes::primitives::<T>` (`node.rs` lines 37-39): sets the
`Primitives` parameter, keeping `Engine`. -/
def AnyNodeTypes.primitives {P : Type} {E : Type}
    (_self : AnyNodeTypes P E) (T : Type) : AnyNodeTypes T E :=
  ⟨{}, {}⟩

/-- `AnyNodeTypes::engine::<T>` (`node.rs` lines 42-44): sets the `Engine`
parameter, keeping `Primitives`. -/
def AnyNodeTypes.engine {P : Type} {E : Type}
    (_self : AnyNodeTypes P E) (T : Type) : AnyNodeTypes P T :=
  ⟨{}, {}⟩

/-- A resolved `NodeTypes` instantiation: its two associated types. -/
structure NodeTypesInst : Type 1 where
  Primitives : Type
  Engine : Type

/-- The `impl NodeTypes for AnyNodeTypes<P, E>` (`node.rs` lines 47-55):
`Primitives = P`, `Engine = E`. -/
def AnyNodeTypes.nodeTypes {P : Type} {E : Type}
    (_self : AnyNodeTypes P E) : NodeTypesInst :=
  { Primitives := P, Engine := E }

/-- A `NodeAddOns<N>` impl: the data of the trait, namely the `EthApi`
associated type (`node.rs` lines 152-156). -/
structure NodeAddOnsImpl : Type 1 where
  EthApi : Type

/-- `impl<N: FullNodeComponents> NodeAddOns<N> for ()` (`node.rs` lines
158-160): for every component set `N`, the unit add-ons with
`EthApi = ()`. -/
def unitNodeAddOns (_N : Type) : NodeAddOnsImpl :=
  { EthApi := Unit }

/-- A `BuilderProvider<N>` impl for `Self`: the `Ctx` associated type and
the `builder()` function (`node.rs` lines 163-170). -/
structure BuilderProviderImpl (Self : Type) : Type 1 where
  Ctx : Type
  builder : Ctx → Self

/-- `const fn noop_builder(_: ()) {}` (`node.rs` line 180). -/
def noop_builder : Unit → Unit := fun _ => ()

/-- `impl<N: FullNodeComponents> BuilderProvider<N> for ()` (`node.rs`
lines 172-178): `Ctx = ()` and `builder()` returns `noop_builder`. -/
def unitBuilderProvider (_N : Type) : BuilderProviderImpl Unit :=
  { Ctx := Unit, builder := noop_builder }

def ctxSuccessTrace : List Ev :=
  [Ev.step .configureGlobals, Ev.step .loadTomlConfig, Ev.step .resolvePeers,
   Ev.step .attachDatabase, Ev.step .adjustConfigs, Ev.step .providerFactory,
   Ev.step .prometheusServer, Ev.step .withGenesis, Ev.step .metricsTask,
   Ev.spawnTask .metrics, Ev.step .blockchainDb, Ev.step .withComponents]

theorem launchCtx_ok {env : Env} {tr : List Ev} {comps : ComponentsM}
    (h : launchCtx env = (tr, .ok comps)) :
    tr = ctxSuccessTrace ∧ env.componentsBuild = .ok comps := by
  unfold launchCtx at h
  repeat' split at h
  all_goals simp_all [ctxSuccessTrace]

def postSuccessTail (exl : List Nat) : List Ev :=
  (if exl.isEmpty then [] else [Ev.spawnTask .exexManager])
  ++ [Ev.chanCreated .toTreeTx, Ev.chanCreated .toTreeRx,
      Ev.chanCreated .fromTreeTx, Ev.chanCreated .fromTreeRx,
      Ev.serviceConstructed, Ev.spawnTask .eventsTask,
      Ev.rpcStarted, Ev.spawnTask .rpcServers, Ev.spawnTask .consensusEngine,
      Ev.onNodeStarted, Ev.handleCreated,
      Ev.dropped .fromTreeTx, Ev.dropped .toTreeRx]

def successOutput (env : Env) (comps : ComponentsM) (rpcPair : Nat × Nat) : LaunchOutput :=
  { handle := {
      node_exit_future := { pending := env.engineResult, terminate := env.nodeConfig.terminate }
      node := {
        evm_config := comps.evmConfig, block_executor := comps.blockExecutor,
        pool := comps.pool, network := comps.network, provider := env.provider,
        payload_builder := comps.payloadBuilder, task_executor := env.taskExecutor,
        rpc_server_handles := rpcPair.1, rpc_registry := rpcPair.2,
        config := env.nodeConfig, data_dir := env.dataDir } }
    pipelineExexHandle := (exexLaunch env.installedExex).getD .empty
    prunerFinishedExexHeight := (exexLaunch env.installedExex).map (fun _ => env.exexFinishedHeight)
    eventsSources := eventsStreams env.nodeConfig
    serviceHeldEndpoints := [.toTreeTx, .fromTreeRx] }

theorem launch_ok_char {env : Env} {out : LaunchOutput}
    (h : (launch_node env).2 = .ok out) :
    ∃ comps rpcPair, env.componentsBuild = .ok comps ∧ env.rpcLaunch = .ok rpcPair
      ∧ out = successOutput env comps rpcPair
      ∧ (launch_node env).1 = ctxSuccessTrace ++ postSuccessTail env.installedExex := by
  unfold launch_node at *
  rcases hc : launchCtx env with ⟨tr, r⟩
  cases r with
  | error e => simp [hc] at h
  | ok comps =>
    obtain ⟨htr, hcomps⟩ := launchCtx_ok hc
    subst htr
    refine ⟨comps, ?_⟩
    simp only [hc] at h ⊢
    unfold launchPost at h ⊢
    repeat' split at h
    all_goals simp_all [successOutput, postSuccessTail, exexLaunch]
    all_goals (split <;> simp_all)

theorem launchCtx_steps (env : Env) :
    ((firstCtxFailure env).isNone → stepsOf (launchCtx env).1 = codeContextSteps)
    ∧ (∀ k e, firstCtxFailure env = some (k, e) →
        (launchCtx env).2 = .error e
        ∧ stepsOf (launchCtx env).1 = codeContextSteps.take (k + 1)) := by
  constructor
  · intro hnone
    unfold firstCtxFailure at hnone
    unfold launchCtx
    repeat' split at hnone
    all_goals simp_all [stepsOf, codeContextSteps]
  · intro k e h
    unfold firstCtxFailure at h
    unfold launchCtx
    repeat' split at h
    all_goals try exact Option.noConfusion h
    all_goals injection h with h1
    all_goals injection h1 with h2 h3
    all_goals subst h2
    all_goals subst h3
    all_goals simp_all [stepsOf, codeContextSteps]

theorem post_preserves_steps {env : Env} {comps : ComponentsM} {tr : List Ev} :
    stepsOf (launchPost env comps tr).1 = stepsOf tr := by
  unfold launchPost
  rcases hx : exexLaunch env.installedExex with _ | hdl
  all_goals repeat' split
  all_goals simp_all [stepsOf, List.filterMap_append]

theorem launch_node_ctx_error {env : Env} {e : Err}
    (h : (launchCtx env).2 = .error e) :
    launch_node env = ((launchCtx env).1, .error e) := by
  unfold launch_node
  rcases hc : launchCtx env with ⟨tr, r⟩
  cases r <;> simp_all

theorem launch_node_steps_eq (env : Env) :
    stepsOf (launch_node env).1 = stepsOf (launchCtx env).1 := by
  unfold launch_node
  rcases hc : launchCtx env with ⟨tr, r⟩
  cases r with
  | error e => simp [hc]
  | ok comps => simp [hc, post_preserves_steps]

theorem launchCtx_no_post_marker (env : Env) :
    Ev.onNodeStarted ∉ (launchCtx env).1
    ∧ Ev.handleCreated ∉ (launchCtx env).1
    ∧ Ev.rpcStarted ∉ (launchCtx env).1
    ∧ Ev.serviceConstructed ∉ (launchCtx env).1 := by
  unfold launchCtx
  repeat' split
  all_goals simp

/-- A concrete component set for witnesses. -/
def comps0 : ComponentsM where
  pool := 1
  evmConfig := 2
  blockExecutor := 3
  network := 4
  payloadBuilder := 5

/-- A fully successful environment: every fallible call succeeds, the store
is empty (genesis gets written), no execution extensions are installed. -/
def env0 : Env where
  tomlConfig := none
  resolvePeers := none
  providerFactory := none
  prometheus := none
  storedGenesis := none
  configuredGenesis := 7
  blockchainDb := none
  componentsBuild := .ok comps0
  fetchClient := none
  maxBlock := none
  installedExex := []
  buildPipeline := none
  jwtSecret := none
  rpcLaunch := .ok (8, 9)
  onStartedRes := none
  nodeConfig := { debugTip := none, terminate := false, dev := false }
  provider := 6
  taskExecutor := 10
  dataDir := 11
  exexFinishedHeight := 0
  engineResult := .ok ()

/-- `env0` with a genesis mismatch: the store records genesis 3 while the
configured chain has genesis 7. -/
def envMismatch : Env := { env0 with storedGenesis := some 3 }

/-- `env0` with a failing toml-config step. -/
def envTomlFail : Env := { env0 with tomlConfig := some .tomlConfig }

/-- `env0` with a failing on-node-started hook. -/
def envHookFail : Env := { env0 with onStartedRes := some .onStartedHook }

/-! ## Claim theorems -/

/-- C1: `launch_node` runs the Launch Context setup steps strictly
sequentially: the step trace of every launch is a prefix of the source's
step sequence (so the mandated steps occur in exactly the mandated order,
each at most once, with no retry); if a step fails, `launch_node` returns
that step's error and no node handle, having entered exactly the steps up
to and including the failing one.  The source's step sequence restricted to
the spec's mandated steps is exactly the mandated order (the source
additionally runs the prometheus-server step between the provider-factory
and genesis steps). -/
theorem launch_node_sequences_steps_and_fails_fast (env : Env) :
    ((firstCtxFailure env).isNone → stepsOf (launch_node env).1 = codeContextSteps)
    ∧ (∀ k e, firstCtxFailure env = some (k, e) →
        (launch_node env).2 = Except.error e
        ∧ stepsOf (launch_node env).1 = codeContextSteps.take (k + 1)
        ∧ ∀ out, (launch_node env).2 ≠ Except.ok out)
    ∧ codeContextSteps.filter (fun s => decide (s ∈ mandatedSteps)) = mandatedSteps
    ∧ codeContextSteps.Nodup := by
  obtain ⟨hnone, hsome⟩ := launchCtx_steps env
  refine ⟨?_, ?_, by decide, by decide⟩
  · intro h
    rw [launch_node_steps_eq]
    exact hnone h
  · intro k e h
    obtain ⟨herr, htr⟩ := hsome k e h
    have hmain := launch_node_ctx_error herr
    refine ⟨by rw [hmain], ?_, ?_⟩
    · rw [launch_node_steps_eq]
      exact htr
    · intro out hout
      rw [hmain] at hout
      exact Except.noConfusion hout

/-- Witness for C1: with a failing toml-config step, `launch_node` returns
exactly that error, and the step trace stops right after the config step. -/
theorem launch_node_sequences_steps_and_fails_fast_witness :
    (launch_node envTomlFail).2 = Except.error Err.tomlConfig
    ∧ stepsOf (launch_node envTomlFail).1 = codeContextSteps.take 2 := by
  have h := (launch_node_sequences_steps_and_fails_fast envTomlFail).2.1
    1 Err.tomlConfig (by decide)
  exact ⟨h.1, h.2.1⟩

/-- C2: launching against a store whose recorded genesis differs from the
configured genesis fails with the genesis-mismatch error, the last event of
the run is the `with_genesis` step itself, and no background task has been
spawned at that point. -/
theorem launch_node_genesis_mismatch_aborts (env : Env) (g : Nat)
    (hg : env.storedGenesis = some g) (hne : g ≠ env.configuredGenesis)
    (h1 : env.tomlConfig = none) (h2 : env.resolvePeers = none)
    (h3 : env.providerFactory = none) (h4 : env.prometheus = none) :
    (launch_node env).2 = Except.error Err.genesisMismatch
    ∧ ((launch_node env).1).getLast? = some (Ev.step .withGenesis)
    ∧ ∀ t, Ev.spawnTask t ∉ (launch_node env).1 := by
  have hgen : genesisCheck env = some .genesisMismatch := by
    simp only [genesisCheck, hg]
    exact if_neg hne
  have herr : (launchCtx env).2 = .error .genesisMismatch := by
    unfold launchCtx
    simp [h1, h2, h3, h4, hgen]
  have htr : (launchCtx env).1 =
      [Ev.step .configureGlobals, Ev.step .loadTomlConfig, Ev.step .resolvePeers,
       Ev.step .attachDatabase, Ev.step .adjustConfigs, Ev.step .providerFactory,
       Ev.step .prometheusServer, Ev.step .withGenesis] := by
    unfold launchCtx
    simp [h1, h2, h3, h4, hgen]
  have hmain := launch_node_ctx_error herr
  rw [hmain, htr]
  refine ⟨rfl, rfl, ?_⟩
  intro t
  simp

/-- Witness for C2: the concrete mismatching environment (stored genesis 3,
configured genesis 7) aborts with the mismatch error and spawns nothing. -/
theorem launch_node_genesis_mismatch_aborts_witness :
    (launch_node envMismatch).2 = Except.error Err.genesisMismatch
    ∧ ((launch_node envMismatch).1).getLast? = some (Ev.step .withGenesis)
    ∧ ∀ t, Ev.spawnTask t ∉ (launch_node envMismatch).1 :=
  launch_node_genesis_mismatch_aborts envMismatch 3
    (by decide) (by decide) (by decide) (by decide) (by decide) (by decide)

theorem oneshot_foldl_from_some (v : EngResult) (rs : List EngResult)
    (acc : List Bool) :
    rs.foldl oneshotStep (some v, acc)
      = (some v, acc ++ rs.map (fun _ => false)) := by
  induction rs generalizing acc with
  | nil => simp
  | cons r rest ih =>
    rw [List.foldl_cons]
    have hstep : oneshotStep (some v, acc) r = (some v, acc ++ [false]) := rfl
    rw [hstep, ih]
    simp

/-- C3: the oneshot completion channel keeps exactly the single terminal
result the consensus-engine task sends; any further forwarding attempt is
rejected and changes nothing, so the Exit Future resolves at most once and
carries exactly that first result (success stays success, an engine error
is forwarded as the error value).  In every successful launch the handle's
exit future is wired to the engine service's terminal result. -/
theorem exit_future_single_resolution (res : EngResult) (extra : List EngResult) :
    (oneshotSendAll (engineTaskSends res ++ extra)).1 = some res
    ∧ (oneshotSendAll (engineTaskSends res ++ extra)).2
        = true :: extra.map (fun _ => false)
    ∧ exitFutureResolve (oneshotSendAll (engineTaskSends res ++ extra)).1
        = (match res with
            | .ok _ => ExitResult.ok
            | .error c => ExitResult.engineErr c)
    ∧ ∀ env out, (launch_node env).2 = Except.ok out →
        out.handle.node_exit_future.pending = env.engineResult := by
  have hfold : oneshotSendAll (engineTaskSends res ++ extra)
      = (some res, true :: extra.map (fun _ => false)) := by
    unfold oneshotSendAll engineTaskSends
    rw [List.cons_append, List.foldl_cons]
    have hstep : oneshotStep (none, []) res = (some res, [true]) := rfl
    rw [hstep, oneshot_foldl_from_some]
    simp
  refine ⟨by rw [hfold], by rw [hfold], ?_, ?_⟩
  · rw [hfold]
    cases res <;> rfl
  · intro env out ho
    obtain ⟨comps, rpcPair, _, _, hout, _⟩ := launch_ok_char ho
    subst hout
    rfl

/-- Witness for C3: a concrete ok result followed by one further forwarding
attempt — the second attempt is rejected — and the concrete successful
launch carries its engine result in the exit future. -/
theorem exit_future_single_resolution_witness :
    (oneshotSendAll (engineTaskSends (.ok ()) ++ [.error 4])).1 = some (.ok ())
    ∧ (oneshotSendAll (engineTaskSends (.ok ()) ++ [.error 4])).2 = [true, false]
    ∧ exitFutureResolve (oneshotSendAll (engineTaskSends (.ok ()) ++ [.error 4])).1
        = ExitResult.ok
    ∧ ∀ out, (launch_node env0).2 = Except.ok out →
        out.handle.node_exit_future.pending = env0.engineResult := by
  have h := exit_future_single_resolution (.ok ()) [.error 4]
  exact ⟨h.1, h.2.1, h.2.2.1, fun out ho => h.2.2.2 env0 out ho⟩

/-- C4: with zero installed execution extensions the pipeline is given the
empty/no-op extension-manager handle and the pruner builder receives no
finished-extension-height bound. -/
theorem zero_exex_unblocked_pruner (env : Env) (out : LaunchOutput)
    (hx : env.installedExex = []) (ho : (launch_node env).2 = Except.ok out) :
    out.pipelineExexHandle = ExExHandleM.empty
    ∧ out.prunerFinishedExexHeight = none := by
  obtain ⟨comps, rpcPair, _, _, hout, _⟩ := launch_ok_char ho
  subst hout
  simp [successOutput, exexLaunch, hx]

/-- The output of the concrete successful launch `env0`. -/
def out0 : LaunchOutput := successOutput env0 comps0 (8, 9)

/-- Witness for C4: the concrete successful zero-extension launch. -/
theorem zero_exex_unblocked_pruner_witness :
    (launch_node env0).2 = Except.ok out0
    ∧ out0.pipelineExexHandle = ExExHandleM.empty
    ∧ out0.prunerFinishedExexHeight = none := by
  refine ⟨by decide, ?_⟩
  exact zero_exex_unblocked_pruner env0 out0 (by decide) (by decide)

theorem launch_node_eq_post {env : Env} {tr : List Ev} {comps : ComponentsM}
    (h : launchCtx env = (tr, .ok comps)) :
    launch_node env = launchPost env comps tr := by
  unfold launch_node
  rw [h]

theorem launch_onStarted_fail {env : Env} {e : Err}
    (he : env.onStartedRes = some e)
    (hmem : Ev.onNodeStarted ∈ (launch_node env).1) :
    (launch_node env).2 = Except.error e
    ∧ Ev.spawnTask .consensusEngine ∈ (launch_node env).1
    ∧ Ev.rpcStarted ∈ (launch_node env).1
    ∧ Ev.handleCreated ∉ (launch_node env).1 := by
  rcases hc : launchCtx env with ⟨tr, r⟩
  cases r with
  | error err =>
    have hmain : launch_node env = ((launchCtx env).1, .error err) :=
      launch_node_ctx_error (by rw [hc])
    rw [hmain] at hmem
    exact absurd hmem (launchCtx_no_post_marker env).1
  | ok comps =>
    obtain ⟨htr, _⟩ := launchCtx_ok hc
    subst htr
    have hmain := launch_node_eq_post hc
    rw [hmain] at hmem ⊢
    unfold launchPost at hmem ⊢
    rcases hx : exexLaunch env.installedExex with _ | hdl
    all_goals simp only [hx] at hmem ⊢
    all_goals repeat' split at hmem
    all_goals simp_all [ctxSuccessTrace]

/-- C5: in every successful launch the on-node-started observer runs
exactly once, after the RPC servers are started and the consensus-engine
task is spawned, and before the node handle is created; and whenever the
observer runs and fails, `launch_node` returns the observer's error and no
handle is created, even though the RPC servers and the consensus-engine
task were already started. -/
theorem on_node_started_once_and_fatal (env : Env) :
    (∀ out, (launch_node env).2 = Except.ok out →
      ((launch_node env).1.filter (fun x => x = Ev.onNodeStarted)).length = 1
      ∧ occursBefore (launch_node env).1 Ev.rpcStarted Ev.onNodeStarted = true
      ∧ occursBefore (launch_node env).1 (Ev.spawnTask .consensusEngine)
          Ev.onNodeStarted = true
      ∧ occursBefore (launch_node env).1 Ev.onNodeStarted Ev.handleCreated = true)
    ∧ (∀ e, env.onStartedRes = some e → Ev.onNodeStarted ∈ (launch_node env).1 →
        (launch_node env).2 = Except.error e
        ∧ Ev.spawnTask .consensusEngine ∈ (launch_node env).1
        ∧ Ev.rpcStarted ∈ (launch_node env).1
        ∧ Ev.handleCreated ∉ (launch_node env).1) := by
  constructor
  · intro out ho
    obtain ⟨comps, rpcPair, _, _, _, htr⟩ := launch_ok_char ho
    rw [htr]
    rcases hx : env.installedExex with _ | ⟨a, l⟩
    · decide
    · simp only [postSuccessTail, List.isEmpty_cons, Bool.false_eq_true, if_false]
      decide
  · intro e he hmem
    exact launch_onStarted_fail he hmem

/-- Witness for C5: the concrete environment whose observer fails — the
launch returns the observer's error while the RPC and engine tasks were
already started and no handle event was emitted. -/
theorem on_node_started_once_and_fatal_witness :
    (launch_node envHookFail).2 = Except.error Err.onStartedHook
    ∧ Ev.spawnTask .consensusEngine ∈ (launch_node envHookFail).1
    ∧ Ev.rpcStarted ∈ (launch_node envHookFail).1
    ∧ Ev.handleCreated ∉ (launch_node envHookFail).1 :=
  (on_node_started_once_and_fatal envHookFail).2 Err.onStartedHook
    (by decide) (by decide)

/-- C6: the stream handed to the process-critical events task merges
exactly the network, pipeline, pruner and static-file-producer streams,
plus the consensus-layer health-monitor stream if and only if no manual
debug tip is set and the node is not in development mode — otherwise an
empty stream takes its slot; every successful launch spawns the events
task with exactly these sources. -/
theorem events_task_merged_sources (cfg : NodeConfigM) :
    (EvSource.clHealth ∈ eventsStreams cfg ↔ (cfg.debugTip = none ∧ cfg.dev = false))
    ∧ (EvSource.emptyStream ∈ eventsStreams cfg ↔
        ¬(cfg.debugTip = none ∧ cfg.dev = false))
    ∧ EvSource.network ∈ eventsStreams cfg
    ∧ EvSource.pipeline ∈ eventsStreams cfg
    ∧ EvSource.pruner ∈ eventsStreams cfg
    ∧ EvSource.staticFile ∈ eventsStreams cfg
    ∧ (eventsStreams cfg).length = 5
    ∧ (∀ env out, (launch_node env).2 = Except.ok out →
        out.eventsSources = eventsStreams env.nodeConfig
        ∧ Ev.spawnTask .eventsTask ∈ (launch_node env).1) := by
  have hlast : ∀ env out, (launch_node env).2 = Except.ok out →
      out.eventsSources = eventsStreams env.nodeConfig
      ∧ Ev.spawnTask .eventsTask ∈ (launch_node env).1 := by
    intro env out ho
    obtain ⟨comps, rpcPair, _, _, hout, htr⟩ := launch_ok_char ho
    subst hout
    refine ⟨rfl, ?_⟩
    rw [htr]
    rcases hx : env.installedExex with _ | ⟨a, l⟩
    · decide
    · simp only [postSuccessTail, List.isEmpty_cons, Bool.false_eq_true, if_false]
      decide
  refine ⟨?_, ?_, ?_, ?_, ?_, ?_, ?_, hlast⟩
  all_goals (
    rcases cfg with ⟨tip, term, dev⟩
    cases tip <;> cases dev <;> simp [eventsStreams])

/-- Witness for C6: with the default config (no debug tip, not dev) the
health stream is merged; the concrete successful launch records exactly
the computed sources. -/
theorem events_task_merged_sources_witness :
    (EvSource.clHealth ∈ eventsStreams env0.nodeConfig
      ↔ (env0.nodeConfig.debugTip = none ∧ env0.nodeConfig.dev = false))
    ∧ out0.eventsSources = eventsStreams env0.nodeConfig
    ∧ Ev.spawnTask .eventsTask ∈ (launch_node env0).1 := by
  have h := events_task_merged_sources env0.nodeConfig
  have h2 := h.2.2.2.2.2.2.2 env0 out0 (by decide)
  exact ⟨h.1, h2.1, h2.2⟩

/-- C7: the node handle returned by a successful launch snapshots exactly
the instances built during that launch — pool, network, provider, payload
builder, EVM config, block executor, config and data dir all equal the
corresponding built instances — and the handle-creation event occurs
exactly once, at the end of the run. -/
theorem node_handle_snapshot (env : Env) (out : LaunchOutput) (comps : ComponentsM)
    (hc : env.componentsBuild = Except.ok comps)
    (ho : (launch_node env).2 = Except.ok out) :
    out.handle.node.pool = comps.pool
    ∧ out.handle.node.network = comps.network
    ∧ out.handle.node.provider = env.provider
    ∧ out.handle.node.payload_builder = comps.payloadBuilder
    ∧ out.handle.node.evm_config = comps.evmConfig
    ∧ out.handle.node.block_executor = comps.blockExecutor
    ∧ out.handle.node.config = env.nodeConfig
    ∧ out.handle.node.data_dir = env.dataDir
    ∧ ((launch_node env).1.filter (fun x => x = Ev.handleCreated)).length = 1 := by
  obtain ⟨comps', rpcPair, hc', _, hout, htr⟩ := launch_ok_char ho
  rw [hc] at hc'
  injection hc' with hcc
  subst hcc
  subst hout
  refine ⟨rfl, rfl, rfl, rfl, rfl, rfl, rfl, rfl, ?_⟩
  rw [htr]
  rcases hx : env.installedExex with _ | ⟨a, l⟩
  · decide
  · simp only [postSuccessTail, List.isEmpty_cons, Bool.false_eq_true, if_false]
    decide

/-- Witness for C7: the concrete successful launch's handle snapshots the
concrete component ids. -/
theorem node_handle_snapshot_witness :
    out0.handle.node.pool = comps0.pool
    ∧ out0.handle.node.network = comps0.network
    ∧ out0.handle.node.provider = env0.provider
    ∧ ((launch_node env0).1.filter (fun x => x = Ev.handleCreated)).length = 1 := by
  have h := node_handle_snapshot env0 out0 comps0 (by decide) (by decide)
  exact ⟨h.1, h.2.1, h.2.2.1, h.2.2.2.2.2.2.2.2⟩

/-- C8: for every component set `N`, the unit type is a valid add-ons
instantiation and it is empty/no-op: its `EthApi` type is the unit type,
its builder context is the unit type, and its builder is the no-op builder
that produces `()` from any context. -/
theorem unit_add_ons_noop (N : Type) :
    (unitNodeAddOns N).EthApi = Unit
    ∧ (unitBuilderProvider N).Ctx = Unit
    ∧ (unitBuilderProvider N).builder = noop_builder
    ∧ ∀ c : Unit, noop_builder c = () :=
  ⟨rfl, rfl, rfl, fun _ => rfl⟩

/-- C9, counterexample: in the concrete all-success launch, the receiver of
the commit-to-tree channel and the sender of the read-from-tree channel are
dropped strictly after the consensus-engine service is constructed — the
underscore-prefixed bindings `_to_tree_rx` and `_from_tree_tx` live to the
end of `launch_node`'s scope — so the claim that they are dropped
immediately after creation, before the service is constructed, is false. -/
theorem tree_endpoints_drop_counterexample :
    occursBefore (launch_node env0).1 (Ev.dropped .toTreeRx)
      Ev.serviceConstructed = false
    ∧ occursBefore (launch_node env0).1 (Ev.dropped .fromTreeTx)
      Ev.serviceConstructed = false
    ∧ occursBefore (launch_node env0).1 Ev.serviceConstructed
      (Ev.dropped .toTreeRx) = true
    ∧ occursBefore (launch_node env0).1 Ev.serviceConstructed
      (Ev.dropped .fromTreeTx) = true
    ∧ Ev.dropped .toTreeRx ∈ (launch_node env0).1
    ∧ Ev.serviceConstructed ∈ (launch_node env0).1 := by
  decide

/-- C9, amended: the receiver end of the commit-to-tree channel and the
sender end of the read-from-tree channel are never moved into the
consensus-engine service (which holds only the tree-write sender and the
tree-read receiver); both are dropped only at the end of `launch_node`'s
scope, after the service is constructed and after the node handle is
created. -/
theorem tree_endpoints_dropped_at_scope_end (env : Env) (out : LaunchOutput)
    (ho : (launch_node env).2 = Except.ok out) :
    out.serviceHeldEndpoints = [Endpoint.toTreeTx, Endpoint.fromTreeRx]
    ∧ Endpoint.toTreeRx ∉ out.serviceHeldEndpoints
    ∧ Endpoint.fromTreeTx ∉ out.serviceHeldEndpoints
    ∧ occursBefore (launch_node env).1 Ev.serviceConstructed
        (Ev.dropped .toTreeRx) = true
    ∧ occursBefore (launch_node env).1 Ev.handleCreated
        (Ev.dropped .toTreeRx) = true
    ∧ occursBefore (launch_node env).1 Ev.serviceConstructed
        (Ev.dropped .fromTreeTx) = true
    ∧ occursBefore (launch_node env).1 Ev.handleCreated
        (Ev.dropped .fromTreeTx) = true := by
  obtain ⟨comps, rpcPair, _, _, hout, htr⟩ := launch_ok_char ho
  subst hout
  refine ⟨rfl, by simp [successOutput], by simp [successOutput], ?_, ?_, ?_, ?_⟩
  all_goals rw [htr]
  all_goals rcases hx : env.installedExex with _ | ⟨a, l⟩
  all_goals first
    | decide
    | (simp only [postSuccessTail, List.isEmpty_cons, Bool.false_eq_true, if_false]
       decide)

/-- Witness for C9's amended theorem: the concrete successful launch. -/
theorem tree_endpoints_dropped_at_scope_end_witness :
    out0.serviceHeldEndpoints = [Endpoint.toTreeTx, Endpoint.fromTreeRx]
    ∧ occursBefore (launch_node env0).1 Ev.serviceConstructed
        (Ev.dropped .toTreeRx) = true :=
  have h := tree_endpoints_dropped_at_scope_end env0 out0 (by decide)
  ⟨h.1, h.2.2.2.1⟩

/-- C10: the `AnyNodeTypes` setters commute — setting primitives then
engine equals setting engine then primitives, from `default` or from any
value — each setter changes only its own type parameter (visible in the
result types `AnyNodeTypes P2 E` / `AnyNodeTypes P E2` of the intermediate
values), and the resolved `NodeTypes` instantiation of the combined result
has `Primitives = P2` and `Engine = E2`. -/
theorem any_node_types_setters_commute (P E P2 E2 : Type) :
    (∀ a : AnyNodeTypes P E, (a.primitives P2).engine E2 = (a.engine E2).primitives P2)
    ∧ ((AnyNodeTypes.default P E).primitives P2).engine E2
        = ((AnyNodeTypes.default P E).engine E2).primitives P2
    ∧ (((AnyNodeTypes.default P E).primitives P2).engine E2).nodeTypes
        = { Primitives := P2, Engine := E2 }
    ∧ (∀ a : AnyNodeTypes P E,
        (a.primitives P2).nodeTypes = { Primitives := P2, Engine := E }
        ∧ (a.engine E2).nodeTypes = { Primitives := P, Engine := E2 }) :=
  ⟨fun _ => rfl, rfl, rfl, fun _ => ⟨rfl, rfl⟩⟩
